import Mathlib

/-!
# raft::span

A shallow embedding of `cpp/include/raft/span.h`: the non-owning view
`span<T, Extent>` over a contiguous block of memory, its constructors,
element access and sub-view operations.

* `std::size_t` is a 64-bit unsigned integer: a natural number below
  `SIZE_MOD = 2^64`, every arithmetic operation reduced modulo `SIZE_MOD`.
* A pointer `T*` is a 64-bit address counted in elements, a natural number
  below `SIZE_MOD`; `nullptr` is address `0`.  The pointer sums and differences
  the sub-view operations compute (`data() + _offset`, `data() + size() - Count`)
  wrap modulo `SIZE_MOD`, as on the machine.  A reference `T&` designates an
  element by its location, `_idx` elements after `data()`.
* A failed `release_assert` calls `__assert_fail` and the program aborts: an
  operation that can abort returns `Option`, `none` standing for the abort.
* The template parameter `Extent` is the index of the type `span Extent`; the
  element type `T` plays no part in the arithmetic and is left out.
-/

namespace raft

/-! ## Machine integers and pointers -/

/-- The number of values of `std::size_t`. -/
def SIZE_MOD : Nat := 18446744073709551616

/-- Source: `constexpr std::size_t dynamic_extent = std::numeric_limits<std::size_t>::max();` -/
def dynamic_extent : Nat := 18446744073709551615

/-- Addition of two `std::size_t` values. -/
def size_add (a b : Nat) : Nat := (a + b) % SIZE_MOD

/-- Subtraction of two `std::size_t` values (wraps below zero). -/
def size_sub (a b : Nat) : Nat := (a + SIZE_MOD - b % SIZE_MOD) % SIZE_MOD

/-- The null pointer: address `0`. -/
def nullptr : Nat := 0

/-- The pointer sum `p + n` of a `T*` and a `std::size_t`, in 64 bits. -/
def ptr_add (p n : Nat) : Nat := (p + n) % SIZE_MOD

/-- The pointer difference `p - n` of a `T*` and a `std::size_t`, in 64 bits. -/
def ptr_sub (p n : Nat) : Nat := (p + SIZE_MOD - n % SIZE_MOD) % SIZE_MOD

/-- The conversion to `std::size_t` of the `std::ptrdiff_t` value `_last - _first`. -/
def ptr_diff (_last _first : Nat) : Nat :=
  (((_last : Int) - (_first : Int)) % (SIZE_MOD : Int)).toNat

/-- The macro `release_assert(cond)`: nothing happens when `cond` holds,
`__assert_fail` aborts the program otherwise. -/
def release_assert (cond : Bool) : Option Unit :=
  if cond then some () else none

/-- Modelled from the spec: the macro `SPAN_CHECK`, which `span::last(std::size_t)`
uses and `span.h` does not define.  The spec has `last(count)` fail its bounds
check when `count > size()`, a failed bounds check being a fatal assertion, so
the macro is the assertion `release_assert`. -/
def SPAN_CHECK (cond : Bool) : Option Unit :=
  release_assert cond

/-! ## extent_value -/

/-- The struct `extent_value<Extent, Offset, Count>::value`:
`Count != dynamic_extent ? Count : (Extent != dynamic_extent ? Extent - Offset : Extent)`. -/
def extent_value (Extent Offset Count : Nat) : Nat :=
  if Count ≠ dynamic_extent then Count
  else (if Extent ≠ dynamic_extent then size_sub Extent Offset else Extent)

/-! ## The class span -/

/-- The class `span<T, Extent>`: the private members `data_` and `size_`. -/
structure span (Extent : Nat) where
  /-- The member `T* data_`, an address. -/
  data_ : Nat
  /-- The member `std::size_t size_`. -/
  size_ : Nat
deriving DecidableEq, Repr

namespace span

variable {Extent : Nat}

/-- The static extent of a view: the template argument `Extent` of its type. -/
def extent (_v : span Extent) : Nat := Extent

/-- Source: `data() const noexcept -> pointer { return data_; }` -/
def data (v : span Extent) : Nat := v.data_

/-- Source: `size() const noexcept -> index_type { return size_; }` -/
def size (v : span Extent) : Nat := v.size_

/-- Source: `empty() const noexcept -> bool { return size() == 0; }` -/
def empty (v : span Extent) : Bool := decide (v.size = 0)

/-! ### Constructors -/

/-- Source: `constexpr span() noexcept = default;` with the member initialisers
`data_{nullptr}` and `size_{0}`. -/
def ctor_default (Extent : Nat) : span Extent :=
  { data_ := nullptr, size_ := 0 }

/-- Source: `span(pointer _ptr, index_type _count) : size_(_count), data_(_ptr)`
with its two assertions. -/
def ctor (Extent : Nat) (_ptr : Nat) (_count : Nat) : Option (span Extent) := do
  let s : span Extent := { data_ := _ptr, size_ := _count }
  release_assert (!(decide (Extent ≠ dynamic_extent) && decide (_count ≠ Extent)))
  release_assert (decide (_ptr ≠ nullptr) || decide (_count = 0))
  pure s

/-- Source: `span(pointer _first, pointer _last) : size_(_last - _first), data_(_first)`
with its assertion. -/
def ctor_range (Extent : Nat) (_first _last : Nat) : Option (span Extent) := do
  let s : span Extent := { data_ := _first, size_ := ptr_diff _last _first }
  release_assert (decide (s.data_ ≠ nullptr) || decide (s.size_ = 0))
  pure s

/-- Source: `template <std::size_t N> span(element_type (&arr)[N]) : size_(N), data_(&arr[0])`;
`arr` is the address of the array's first element. -/
def ctor_array (Extent : Nat) (arr : Nat) (N : Nat) : span Extent :=
  { data_ := arr, size_ := N }

/-! ### Element access -/

/-- Source: `operator[](index_type _idx) const -> reference`. -/
def index (v : span Extent) (_idx : Nat) : Option Nat := do
  release_assert (decide (_idx < v.size))
  pure (v.data + _idx)

/-- Source: `front() const -> reference { return (*this)[0]; }` -/
def front (v : span Extent) : Option Nat :=
  v.index 0

/-- Source: `back() const -> reference { return (*this)[size() - 1]; }` -/
def back (v : span Extent) : Option Nat :=
  v.index (size_sub v.size 1)

/-! ### Sub-views -/

/-- The template form `subspan<Offset, Count>()`. -/
def subspanT (Offset Count : Nat) (v : span Extent) :
    Option (span (extent_value Extent Offset Count)) := do
  release_assert (if Count = dynamic_extent then decide (Offset ≤ v.size)
                  else decide (size_add Offset Count ≤ v.size))
  ctor (extent_value Extent Offset Count) (ptr_add v.data Offset)
    (if Count = dynamic_extent then size_sub v.size Offset else Count)

/-- The runtime form `subspan(index_type _offset, index_type _count = dynamic_extent)`. -/
def subspan (v : span Extent) (_offset : Nat) (_count : Nat) :
    Option (span dynamic_extent) := do
  release_assert (if _count = dynamic_extent then decide (_offset ≤ v.size)
                  else decide (size_add _offset _count ≤ v.size))
  ctor dynamic_extent (ptr_add v.data _offset)
    (if _count = dynamic_extent then size_sub v.size _offset else _count)

/-- The template form `first<Count>()`. -/
def firstT (Count : Nat) (v : span Extent) : Option (span Count) := do
  release_assert (decide (Count ≤ v.size))
  ctor Count v.data Count

/-- The runtime form `first(std::size_t _count)`. -/
def first (v : span Extent) (_count : Nat) : Option (span dynamic_extent) := do
  release_assert (decide (_count ≤ v.size))
  ctor dynamic_extent v.data _count

/-- The template form `last<Count>()`: the pointer is `data() + size() - Count`. -/
def lastT (Count : Nat) (v : span Extent) : Option (span Count) := do
  release_assert (decide (Count ≤ v.size))
  ctor Count (ptr_sub (ptr_add v.data v.size) Count) Count

/-- The runtime form `last(std::size_t _count)`. -/
def last (v : span Extent) (_count : Nat) : Option (span dynamic_extent) := do
  SPAN_CHECK (decide (_count ≤ v.size))
  v.subspan (size_sub v.size _count) _count

/-! ### The class invariant -/

/-- The state every constructor leaves behind: `size_` is a `std::size_t`, a
view over the null pointer has no elements, and `data_` is a 64-bit pointer. -/
def Valid (v : span Extent) : Prop :=
  v.size_ < SIZE_MOD ∧ (v.data_ = nullptr → v.size_ = 0) ∧ v.data_ < SIZE_MOD

instance (v : span Extent) : Decidable v.Valid := by
  unfold Valid; exact inferInstance

/-- The range a view covers lies in the address space, its one-past-the-end
address included: `data() + size()` does not wrap. -/
def InBounds (v : span Extent) : Prop :=
  v.data_ + v.size_ < SIZE_MOD

instance (v : span Extent) : Decidable v.InBounds := by
  unfold InBounds; exact inferInstance

/-- The two observable members of a view, `(data(), size())`: what two views of
different static extents are compared by. -/
def observe (v : span Extent) : Nat × Nat := (v.data, v.size)

/-! ### Iterators -/

/-- Copy-list-initialisation of a value of the scalar type `T*`, the type that
`iterator`, `const_iterator`, `reverse_iterator` and `const_reverse_iterator` all
name, from a braced list: the empty list gives the null pointer and a single
initialiser gives its value; a list of two or more initialisers is ill-formed for
a scalar, the function holding it cannot be instantiated and there is no value
(`none`). -/
def pointer_list_init : List Nat → Option Nat
  | [] => some nullptr
  | [p] => some p
  | _ => none

/-- Source: `begin() const noexcept -> iterator { return {this, 0}; }`; `this` is
the address of the view object. -/
def begin (_v : span Extent) (this : Nat) : Option Nat :=
  pointer_list_init [this, 0]

/-- Source: `end() const noexcept -> iterator { return {this, size()}; }`. -/
def end_ (v : span Extent) (this : Nat) : Option Nat :=
  pointer_list_init [this, v.size]

/-- Source: `cbegin() const noexcept -> const_iterator { return {this, 0}; }`. -/
def cbegin (_v : span Extent) (this : Nat) : Option Nat :=
  pointer_list_init [this, 0]

/-- Source: `cend() const noexcept -> const_iterator { return {this, size()}; }`. -/
def cend (v : span Extent) (this : Nat) : Option Nat :=
  pointer_list_init [this, v.size]

/-- Source: `rbegin() const noexcept -> reverse_iterator { return reverse_iterator{end()}; }`,
a pointer initialised from the pointer `end()`. -/
def rbegin (v : span Extent) (this : Nat) : Option Nat := do
  let e ← v.end_ this
  pointer_list_init [e]

/-- Source: `rend() const noexcept -> reverse_iterator { return reverse_iterator{begin()}; }`. -/
def rend (v : span Extent) (this : Nat) : Option Nat := do
  let b ← v.begin this
  pointer_list_init [b]

/-- Source: `crbegin() const noexcept -> const_reverse_iterator { return const_reverse_iterator{cend()}; }`. -/
def crbegin (v : span Extent) (this : Nat) : Option Nat := do
  let e ← v.cend this
  pointer_list_init [e]

/-- Source: `crend() const noexcept -> const_reverse_iterator { return const_reverse_iterator{cbegin()}; }`. -/
def crend (v : span Extent) (this : Nat) : Option Nat := do
  let b ← v.cbegin this
  pointer_list_init [b]

/-- The increment `++it` of a cursor of type `T*`, applied `n` times. -/
def advance (it : Nat) (n : Nat) : Nat := it + n

/-! ### Views reachable through the public operations -/

/-- The views a program can hold: the result of a successful constructor, or of a
successful sub-view operation on such a view.  Arguments of type `std::size_t` and
pointer arguments are below `SIZE_MOD`; a native array has at least one element
and its address is not null.  The container constructors delegate to
`span(pointer, index_type)`. -/
inductive Reachable : {E : Nat} → span E → Prop
  | default (E : Nat) : Reachable (ctor_default E)
  | ptr_count (E p c : Nat) (r : span E) :
      p < SIZE_MOD → c < SIZE_MOD → ctor E p c = some r → Reachable r
  | range (E a b : Nat) (r : span E) :
      a < SIZE_MOD → b < SIZE_MOD → ctor_range E a b = some r → Reachable r
  | array (E arr N : Nat) :
      arr ≠ nullptr → arr < SIZE_MOD → 0 < N → N < SIZE_MOD →
      Reachable (ctor_array E arr N)
  | subspanT {E : Nat} (O C : Nat) (v : span E) (r : span (extent_value E O C)) :
      Reachable v → O < SIZE_MOD → C < SIZE_MOD → v.subspanT O C = some r → Reachable r
  | subspan {E : Nat} (o c : Nat) (v : span E) (r : span dynamic_extent) :
      Reachable v → o < SIZE_MOD → c < SIZE_MOD → v.subspan o c = some r → Reachable r
  | firstT {E : Nat} (C : Nat) (v : span E) (r : span C) :
      Reachable v → C < SIZE_MOD → v.firstT C = some r → Reachable r
  | first {E : Nat} (c : Nat) (v : span E) (r : span dynamic_extent) :
      Reachable v → c < SIZE_MOD → v.first c = some r → Reachable r
  | lastT {E : Nat} (C : Nat) (v : span E) (r : span C) :
      Reachable v → C < SIZE_MOD → v.lastT C = some r → Reachable r
  | last {E : Nat} (c : Nat) (v : span E) (r : span dynamic_extent) :
      Reachable v → c < SIZE_MOD → v.last c = some r → Reachable r

end span

/-! ## Auxiliary lemmas -/

theorem release_assert_true : release_assert true = some () := rfl

theorem release_assert_false : release_assert false = none := rfl

theorem release_assert_decide (p : Prop) [Decidable p] :
    release_assert (decide p) = if p then some () else none := by
  by_cases h : p <;> simp [release_assert, h]

theorem size_add_eq (a b : Nat) (h : a + b < SIZE_MOD) : size_add a b = a + b := by
  unfold size_add; exact Nat.mod_eq_of_lt h

theorem size_sub_eq (a b : Nat) (ha : a < SIZE_MOD) (h : b ≤ a) : size_sub a b = a - b := by
  unfold size_sub SIZE_MOD at *; omega

theorem size_sub_wrap (a b : Nat) (hb : b < SIZE_MOD) (h : a < b) :
    size_sub a b = a + SIZE_MOD - b := by
  unfold size_sub SIZE_MOD at *; omega

theorem ptr_add_lt (p n : Nat) : ptr_add p n < SIZE_MOD := by
  unfold ptr_add SIZE_MOD; omega

theorem ptr_sub_lt (p n : Nat) : ptr_sub p n < SIZE_MOD := by
  unfold ptr_sub SIZE_MOD; omega

theorem ptr_add_zero (p : Nat) (h : p < SIZE_MOD) : ptr_add p 0 = p := by
  unfold ptr_add; exact Nat.mod_eq_of_lt h

/-- The pointer `data() + size() - Count` of `last<Count>` is the pointer
`data() + (size() - Count)` of the runtime form. -/
theorem ptr_sub_add (p s c : Nat) (hs : s < SIZE_MOD) (h : c ≤ s) :
    ptr_sub (ptr_add p s) c = ptr_add p (s - c) := by
  unfold ptr_sub ptr_add SIZE_MOD at *; omega

namespace span

variable {Extent : Nat}

/-- The (pointer, count) constructor succeeds exactly when both assertions hold. -/
theorem ctor_eq (E : Nat) (p : Nat) (c : Nat) :
    ctor E p c =
      if (E = dynamic_extent ∨ c = E) ∧ (p ≠ nullptr ∨ c = 0) then some ⟨p, c⟩ else none := by
  unfold ctor
  by_cases h1 : E = dynamic_extent <;> by_cases h2 : c = E <;>
    by_cases h3 : p = nullptr <;> by_cases h4 : c = 0 <;>
    simp [release_assert, h1, h2, h3, h4] <;> split_ifs <;> simp_all

/-- The runtime subspan, its assertion and the constructor's spelled out. -/
theorem subspan_eq (v : span Extent) (o c : Nat) :
    v.subspan o c =
      if c = dynamic_extent then
        (if o ≤ v.size_ ∧ (ptr_add v.data_ o ≠ nullptr ∨ size_sub v.size_ o = 0)
          then some ⟨ptr_add v.data_ o, size_sub v.size_ o⟩ else none)
      else
        (if size_add o c ≤ v.size_ ∧ (ptr_add v.data_ o ≠ nullptr ∨ c = 0)
          then some ⟨ptr_add v.data_ o, c⟩ else none) := by
  unfold subspan
  rw [ctor_eq]
  by_cases hc : c = dynamic_extent
  · by_cases ho : o ≤ v.size_ <;> simp [release_assert, hc, ho, size, data]
  · by_cases ho : size_add o c ≤ v.size_ <;> simp [release_assert, hc, ho, size, data]

/-- The runtime first, its assertion and the constructor's spelled out. -/
theorem first_eq (v : span Extent) (c : Nat) :
    v.first c =
      if c ≤ v.size_ ∧ (v.data_ ≠ nullptr ∨ c = 0) then some ⟨v.data_, c⟩ else none := by
  unfold first
  rw [ctor_eq]
  by_cases hc : c ≤ v.size_ <;> simp [release_assert, hc, size, data]

/-- The runtime last: the check of `SPAN_CHECK`, then the runtime subspan. -/
theorem last_eq (v : span Extent) (c : Nat) :
    v.last c = if c ≤ v.size_ then v.subspan (size_sub v.size_ c) c else none := by
  unfold last SPAN_CHECK
  by_cases hc : c ≤ v.size_ <;> simp [release_assert, hc, size]

end span

/-! ## The class invariant holds of every constructed view -/

namespace span

variable {Extent : Nat}

theorem ctor_default_valid (E : Nat) : (ctor_default E).Valid := by
  simp [Valid, ctor_default, SIZE_MOD, nullptr]

theorem ctor_valid (E : Nat) (p : Nat) (c : Nat) (hp : p < SIZE_MOD) (hc : c < SIZE_MOD)
    (r : span E) (h : ctor E p c = some r) : r.Valid := by
  rw [ctor_eq] at h
  split_ifs at h with hcond
  cases h
  refine ⟨hc, fun hp => ?_, hp⟩
  rcases hcond.2 with h2 | h2
  · exact absurd hp h2
  · exact h2

theorem ptr_diff_lt (a b : Nat) : ptr_diff a b < SIZE_MOD := by
  unfold ptr_diff SIZE_MOD
  omega

/-- The (first, last) constructor succeeds exactly when its assertion holds. -/
theorem ctor_range_eq (E : Nat) (a b : Nat) :
    ctor_range E a b =
      if a ≠ nullptr ∨ ptr_diff b a = 0 then some ⟨a, ptr_diff b a⟩ else none := by
  unfold ctor_range
  by_cases hp : a = nullptr <;> by_cases hs : ptr_diff b a = 0 <;>
    simp [release_assert, hp, hs] <;> split_ifs <;> simp_all

theorem ctor_range_valid (E : Nat) (a b : Nat) (ha : a < SIZE_MOD) (r : span E)
    (h : ctor_range E a b = some r) : r.Valid := by
  rw [ctor_range_eq] at h
  split_ifs at h with hcond
  cases h
  refine ⟨ptr_diff_lt b a, fun hp => ?_, ha⟩
  rcases hcond with h2 | h2
  · exact absurd hp h2
  · exact h2

theorem ctor_array_valid (E : Nat) (arr : Nat) (N : Nat) (harr : arr ≠ nullptr)
    (ha : arr < SIZE_MOD) (hN : N < SIZE_MOD) : (ctor_array E arr N).Valid := by
  simp [Valid, ctor_array, hN, harr, ha]

theorem size_sub_lt (a b : Nat) : size_sub a b < SIZE_MOD := by
  unfold size_sub SIZE_MOD; omega

theorem subspan_valid (v : span Extent) (o c : Nat) (hc : c < SIZE_MOD)
    (r : span dynamic_extent) (h : v.subspan o c = some r) : r.Valid := by
  unfold subspan at h
  by_cases hd : c = dynamic_extent
  · simp only [hd, if_true] at h
    cases hra : release_assert (decide (o ≤ v.size)) with
    | none => simp [hra] at h
    | some u =>
      simp only [hra, Option.bind_eq_bind, Option.some_bind] at h
      exact ctor_valid _ _ _ (ptr_add_lt _ _) (size_sub_lt _ _) r h
  · simp only [hd, if_false] at h
    cases hra : release_assert (decide (size_add o c ≤ v.size)) with
    | none => simp [hra] at h
    | some u =>
      simp only [hra, Option.bind_eq_bind, Option.some_bind] at h
      exact ctor_valid _ _ _ (ptr_add_lt _ _) hc r h

end span

/-! ## Runtime subspan -/

namespace span

variable {Extent : Nat}

/-- The runtime subspan on a range within the view: the bounds check passes, and
the outcome is decided by the null assertion of the constructor. -/
theorem subspan_within (v : span Extent) (o c : Nat) (hs : v.size_ < SIZE_MOD)
    (hc : c ≤ v.size_) (ho : o ≤ v.size_ - c) :
    v.subspan o c =
      if ptr_add v.data_ o ≠ nullptr ∨ c = 0 then some ⟨ptr_add v.data_ o, c⟩ else none := by
  rw [subspan_eq]
  by_cases hd : c = dynamic_extent
  · have ho0 : o = 0 := by
      unfold dynamic_extent SIZE_MOD at *; omega
    have hsz : size_sub v.size_ o = c := by
      rw [size_sub_eq _ _ hs (by omega)]
      unfold dynamic_extent SIZE_MOD at *; omega
    have hle : o ≤ v.size_ := by omega
    rw [if_pos hd, hsz]
    simp only [hle, true_and]
  · have hsum : size_add o c = o + c := size_add_eq _ _ (by omega)
    have hle : o + c ≤ v.size_ := by omega
    rw [if_neg hd, hsum]
    simp only [hle, true_and]

end span

/-- Claim C2, evaluated at a failing input: on the view of 10 elements at address 16,
`subspan(2^64 - 2, 3)` passes the bounds check, because `_offset + _count` wraps to
`1`, and returns a view of 3 elements at address 14, two elements before `data()`,
although both `offset > size()` and `offset + count > size()` hold of the true sum. -/
theorem subspan_wrapped_sum_passes :
    (span.mk 16 10 : span dynamic_extent).subspan 18446744073709551614 3
        = some ⟨14, 3⟩ ∧
      (3 : Nat) ≠ dynamic_extent ∧
      18446744073709551614 < SIZE_MOD ∧
      (span.mk 16 10 : span dynamic_extent).Valid ∧
      (span.mk 16 10 : span dynamic_extent).InBounds ∧
      18446744073709551614 > (span.mk 16 10 : span dynamic_extent).size ∧
      18446744073709551614 + 3 > (span.mk 16 10 : span dynamic_extent).size ∧
      size_add 18446744073709551614 3 = 1 ∧
      ptr_add 16 18446744073709551614 = 14 := by
  decide

/-! ## The extent of a sub-view -/

/-- Claim C3: `extent_value<E, O, C>` is `C` when `C` is not `dynamic_extent`;
otherwise `E - O` when `E` is not `dynamic_extent` (for `O <= E`); otherwise
`dynamic_extent`.  `extent_value<10, 3, dynamic_extent>` is 7 and
`extent_value<10, 3, 2>` is 2, and `extent_value<E, O, C>` is the static extent of
the view `subspan<O, C>()` returns on a parent of static extent `E`. -/
theorem extent_value_law (E O C : Nat) (hE : E < SIZE_MOD) :
    (C ≠ dynamic_extent → extent_value E O C = C) ∧
    (C = dynamic_extent → E ≠ dynamic_extent → O ≤ E → extent_value E O C = E - O) ∧
    (C = dynamic_extent → E = dynamic_extent → extent_value E O C = dynamic_extent) ∧
    extent_value 10 3 dynamic_extent = 7 ∧
    extent_value 10 3 2 = 2 ∧
    (∀ (v : span E) (r : span (extent_value E O C)),
      v.subspanT O C = some r → r.extent = extent_value E O C) ∧
    (span.mk 16 10 : span 10).subspanT 3 dynamic_extent = some ⟨19, 7⟩ ∧
    (span.mk 16 10 : span 10).subspanT 3 2 = some ⟨19, 2⟩ := by
  refine ⟨?_, ?_, ?_, by decide, by decide, fun _ _ _ => rfl, by decide, by decide⟩
  · intro hC
    simp [extent_value, hC]
  · intro hC hE' hO
    simp [extent_value, hC, hE', size_sub_eq E O hE hO]
  · intro hC hE'
    simp [extent_value, hC, hE']

/-- Witness of `extent_value_law`: parent extent 10, offset 3, count unknown. -/
theorem extent_value_law_witness :
    extent_value 10 3 dynamic_extent = 10 - 3 :=
  (extent_value_law 10 3 dynamic_extent (by decide)).2.1 rfl (by decide) (by decide)

/-! ## Element access -/

/-- Claim C4: `v[i]` succeeds exactly when `i < v.size()`; it then returns the
element at offset `i` from `v.data()`, and it aborts when `i >= v.size()`. -/
theorem index_iff_lt_size {Extent : Nat} (v : span Extent) (i : Nat) :
    (i < v.size → v.index i = some (v.data + i)) ∧
    (v.size ≤ i → v.index i = none) ∧
    ((v.index i).isSome ↔ i < v.size) := by
  unfold span.index
  by_cases h : i < v.size
  · simp [release_assert, h]
  · simp [release_assert, h]

/-- Claim C5: `front()` and `back()` abort on an empty view (`back()` through the
index `size() - 1` wrapped in `std::size_t`); on a non-empty view `front()` returns
the element at index 0 and `back()` the element at index `v.size() - 1`. -/
theorem front_back_spec {Extent : Nat} (v : span Extent) (hv : v.size < SIZE_MOD) :
    (v.size = 0 → v.front = none ∧ v.back = none) ∧
    (v.size ≠ 0 →
      v.front = v.index 0 ∧ v.front = some v.data ∧
      v.back = v.index (v.size - 1) ∧ v.back = some (v.data + (v.size - 1))) := by
  unfold span.front span.back
  constructor
  · intro h0
    have hw : size_sub v.size 1 = SIZE_MOD - 1 := by
      rw [h0]; decide
    constructor
    · simp [span.index, release_assert, h0]
    · rw [hw]
      simp [span.index, release_assert, h0]
  · intro hne
    have hw : size_sub v.size 1 = v.size - 1 := size_sub_eq _ _ hv (by omega)
    rw [hw]
    have h1 : 0 < v.size := by omega
    have h2 : v.size - 1 < v.size := by omega
    simp [span.index, release_assert, h1, h2]

/-- Witness of `front_back_spec`: the view of 4 elements at address 16. -/
theorem front_back_spec_witness :
    (span.mk 16 4 : span dynamic_extent).front = some 16 ∧
      (span.mk 16 4 : span dynamic_extent).back = some (16 + (4 - 1)) :=
  have h := (front_back_spec (span.mk 16 4 : span dynamic_extent) (by decide)).2 (by decide)
  ⟨h.2.1, h.2.2.2⟩

/-! ## first and last -/

theorem size_sub_zero (a : Nat) (ha : a < SIZE_MOD) : size_sub a 0 = a := by
  unfold size_sub SIZE_MOD at *; omega

theorem size_add_zero_left (c : Nat) (hc : c < SIZE_MOD) : size_add 0 c = c := by
  unfold size_add SIZE_MOD at *; omega

theorem size_add_sub_cancel (a c : Nat) (ha : a < SIZE_MOD) :
    size_add (size_sub a c) c = a := by
  unfold size_add size_sub SIZE_MOD at *; omega

/-- Claim C6, counterexample: on the view of 3 elements at address 16, with `count`
the value `dynamic_extent`, `first(count)` aborts and `subspan(0, count)` returns
the whole view. -/
theorem first_sentinel_differs :
    (span.mk 16 3 : span dynamic_extent).Valid ∧
      dynamic_extent < SIZE_MOD ∧
      (span.mk 16 3 : span dynamic_extent).first dynamic_extent = none ∧
      (span.mk 16 3 : span dynamic_extent).subspan 0 dynamic_extent = some ⟨16, 3⟩ := by
  decide

/-- Claim C6, amended: for every view `v` and every `std::size_t` `count`,
`v.first(count)` and `v.subspan(0, count)` agree (both abort, or both return the
same `data()` and `size()`) exactly when `count` is not `dynamic_extent` or
`v.size()` is `dynamic_extent`; when `count` is `dynamic_extent` and `v.size()` is
not, `first(count)` aborts and `subspan(0, count)` returns the whole view. -/
theorem first_eq_subspan_iff {Extent : Nat} (v : span Extent) (count : Nat)
    (hv : v.Valid) (hc : count < SIZE_MOD) :
    (v.first count = v.subspan 0 count ↔
      (count ≠ dynamic_extent ∨ v.size = dynamic_extent)) ∧
    (count = dynamic_extent → v.size ≠ dynamic_extent →
      v.first count = none ∧ v.subspan 0 count = some ⟨v.data, v.size⟩) := by
  obtain ⟨hlt, hnull, hdat⟩ := hv
  rw [span.first_eq, span.subspan_eq, size_sub_zero _ hlt, size_add_zero_left _ hc,
    ptr_add_zero _ hdat]
  unfold span.size span.data
  simp only [Nat.zero_le, true_and]
  by_cases hd : count = dynamic_extent
  · have hdata : v.data_ ≠ nullptr ∨ v.size_ = 0 := by
      by_cases h0 : v.data_ = nullptr
      · exact Or.inr (hnull h0)
      · exact Or.inl h0
    simp only [hd, if_true, if_pos hdata]
    by_cases hs : v.size_ = dynamic_extent
    · have hp : v.data_ ≠ nullptr := by
        intro h0
        have := hnull h0
        unfold dynamic_extent at hs; omega
      simp [hs, hp]
    · have hgt : ¬ dynamic_extent ≤ v.size_ := by
        unfold dynamic_extent SIZE_MOD at *; omega
      simp [hs, hgt]
  · simp [hd]

/-- Witness of `first_eq_subspan_iff`: the view of 10 elements at address 16 and
count 4. -/
theorem first_eq_subspan_iff_witness :
    (span.mk 16 10 : span dynamic_extent).first 4
      = (span.mk 16 10 : span dynamic_extent).subspan 0 4 :=
  (first_eq_subspan_iff (span.mk 16 10 : span dynamic_extent) 4 (by decide) (by decide)).1.mpr
    (Or.inl (by decide))

namespace span

variable {Extent : Nat}

/-- The runtime last on a count within the view: both bounds checks pass, and the
outcome is decided by the null assertion of the constructor. -/
theorem last_within (v : span Extent) (c : Nat) (hs : v.size_ < SIZE_MOD)
    (h : c ≤ v.size_) :
    v.last c =
      if ptr_add v.data_ (v.size_ - c) ≠ nullptr ∨ c = 0
        then some ⟨ptr_add v.data_ (v.size_ - c), c⟩ else none := by
  have hoff : size_sub v.size_ c = v.size_ - c := size_sub_eq _ _ hs h
  rw [last_eq, if_pos h, hoff, subspan_within v (v.size_ - c) c hs h (le_refl _)]

end span

/-- Claim C7, evaluated at a failing input: on the view of 3 elements at address 16,
`last(5)` aborts, while `subspan(size() - 5, 5)`, with `size() - 5` wrapped to
`2^64 - 2`, passes the bounds check (the sum wraps to 3) and returns a view of 5
elements at address 14.  On every count within the view the two calls are the same
call. -/
theorem last_aborts_where_subspan_returns :
    (span.mk 16 3 : span dynamic_extent).Valid ∧
      (span.mk 16 3 : span dynamic_extent).InBounds ∧
      (span.mk 16 3 : span dynamic_extent).last 5 = none ∧
      size_sub (span.mk 16 3 : span dynamic_extent).size 5 = 18446744073709551614 ∧
      size_add 18446744073709551614 5 = 3 ∧
      (span.mk 16 3 : span dynamic_extent).subspan
          (size_sub (span.mk 16 3 : span dynamic_extent).size 5) 5
        = some ⟨14, 5⟩ ∧
      (∀ (v : span dynamic_extent) (count : Nat), count ≤ v.size →
        v.last count = v.subspan (size_sub v.size count) count) := by
  refine ⟨by decide, by decide, by decide, by decide, by decide, by decide, ?_⟩
  intro v count h
  unfold span.size at h
  rw [span.last_eq, if_pos h]
  rfl

/-- Claim C9: with a concrete static extent `E`, a (pointer, count) construction
whose arguments satisfy the null constraint (pointer non-null or `count == 0`)
succeeds if and only if `count == E` and aborts otherwise; when it succeeds the
view has `data() == pointer` and `size() == count`. -/
theorem ctor_concrete_extent (E p c : Nat) (hE : E ≠ dynamic_extent)
    (hnull : p ≠ nullptr ∨ c = 0) :
    ((span.ctor E p c).isSome ↔ c = E) ∧
    (c ≠ E → span.ctor E p c = none) ∧
    (c = E → span.ctor E p c = some ⟨p, c⟩) ∧
    (∀ r : span E, span.ctor E p c = some r → r.data = p ∧ r.size = c) := by
  rw [span.ctor_eq]
  by_cases h : c = E
  · have hcond : (E = dynamic_extent ∨ c = E) ∧ (p ≠ nullptr ∨ c = 0) := ⟨Or.inr h, hnull⟩
    rw [if_pos hcond]
    refine ⟨by simp [h], fun hne => absurd h hne, fun _ => rfl, ?_⟩
    intro r hr
    cases hr
    exact ⟨rfl, rfl⟩
  · have hcond : ¬ ((E = dynamic_extent ∨ c = E) ∧ (p ≠ nullptr ∨ c = 0)) := by
      rintro ⟨h1 | h1, _⟩
      · exact hE h1
      · exact h h1
    rw [if_neg hcond]
    refine ⟨by simp [h], fun _ => rfl, fun he => absurd he h, ?_⟩
    intro r hr
    cases hr

/-- Witness of `ctor_concrete_extent`: static extent 5, pointer 16, count 5. -/
theorem ctor_concrete_extent_witness :
    (span.ctor 5 16 5).isSome ↔ 5 = 5 :=
  (ctor_concrete_extent 5 16 5 (by decide) (Or.inl (by decide))).1

/-- Claim C10, evaluated at failing inputs: with static extent 5, the (first, last)
construction from pointers 3 elements apart succeeds with `size() == 3`, default
construction gives `size() == 0`, and construction from an array of 3 elements
gives `size() == 3`; only the (pointer, count) constructor checks the count against
the extent. -/
theorem extent_unchecked_constructors :
    (5 : Nat) ≠ dynamic_extent ∧
      span.ctor_range 5 16 19 = some ⟨16, 3⟩ ∧
      (span.mk 16 3 : span 5).size ≠ (span.mk 16 3 : span 5).extent ∧
      (span.ctor_default 5).size = 0 ∧
      (span.ctor_default 5).extent = 5 ∧
      (span.ctor_array 5 16 3).size = 3 ∧
      (span.ctor_array 5 16 3).extent = 5 ∧
      span.ctor 5 16 3 = none := by
  decide

/-! ## Reachable views -/

/-- A passed assertion followed by `x` is `x`; a failed one aborts. -/
theorem assert_bind_some {α : Type} (b : Bool) (x : Option α) (r : α)
    (h : (do release_assert b; x) = some r) : b = true ∧ x = some r := by
  cases b with
  | false => simp [release_assert] at h
  | true => simpa [release_assert] using h

namespace span

variable {Extent : Nat}

theorem subspanT_valid (v : span Extent) (O C : Nat) (hC : C < SIZE_MOD)
    (r : span (extent_value Extent O C)) (h : v.subspanT O C = some r) : r.Valid := by
  unfold subspanT at h
  obtain ⟨_, hx⟩ := assert_bind_some _ _ _ h
  refine ctor_valid _ _ _ (ptr_add_lt _ _) ?_ r hx
  split_ifs
  · exact size_sub_lt _ _
  · exact hC

theorem first_valid (v : span Extent) (c : Nat) (hv : v.Valid) (hc : c < SIZE_MOD)
    (r : span dynamic_extent) (h : v.first c = some r) : r.Valid := by
  unfold first at h
  obtain ⟨_, hx⟩ := assert_bind_some _ _ _ h
  exact ctor_valid _ _ _ hv.2.2 hc r hx

theorem firstT_valid (v : span Extent) (C : Nat) (hv : v.Valid) (hC : C < SIZE_MOD)
    (r : span C) (h : v.firstT C = some r) : r.Valid := by
  unfold firstT at h
  obtain ⟨_, hx⟩ := assert_bind_some _ _ _ h
  exact ctor_valid _ _ _ hv.2.2 hC r hx

theorem lastT_valid (v : span Extent) (C : Nat) (hC : C < SIZE_MOD)
    (r : span C) (h : v.lastT C = some r) : r.Valid := by
  unfold lastT at h
  obtain ⟨_, hx⟩ := assert_bind_some _ _ _ h
  exact ctor_valid _ _ _ (ptr_sub_lt _ _) hC r hx

theorem last_valid (v : span Extent) (c : Nat) (hc : c < SIZE_MOD)
    (r : span dynamic_extent) (h : v.last c = some r) : r.Valid := by
  unfold last SPAN_CHECK at h
  obtain ⟨_, hx⟩ := assert_bind_some _ _ _ h
  exact subspan_valid _ _ _ hc r hx

/-- Every reachable view is in the state the class invariant describes. -/
theorem Reachable.valid {E : Nat} {v : span E} (h : Reachable v) : v.Valid := by
  induction h with
  | default E => exact ctor_default_valid E
  | ptr_count E p c r hp hc hr => exact ctor_valid E p c hp hc r hr
  | range E a b r ha _ hr => exact ctor_range_valid E a b ha r hr
  | array E arr N harr ha _ hN => exact ctor_array_valid E arr N harr ha hN
  | subspanT O C v r _ _ hC hr _ => exact subspanT_valid v O C hC r hr
  | subspan o c v r _ _ hc hr _ => exact subspan_valid v o c hc r hr
  | firstT C v r _ hC hr ih => exact firstT_valid v C ih hC r hr
  | first c v r _ hc hr ih => exact first_valid v c ih hc r hr
  | lastT C v r _ hC hr _ => exact lastT_valid v C hC r hr
  | last c v r _ hc hr _ => exact last_valid v c hc r hr

end span

/-- Claim C11, counterexample: the (pointer, count) constructor on a non-null
pointer and count 0 succeeds, so a reachable view has `size() == 0` and a `data()`
that is not null; `first(0)` of a view of 4 elements is another one. -/
theorem reachable_empty_nonnull :
    span.ctor dynamic_extent 16 0 = some ⟨16, 0⟩ ∧
      span.Reachable (span.mk 16 0 : span dynamic_extent) ∧
      (span.mk 16 0 : span dynamic_extent).size = 0 ∧
      (span.mk 16 0 : span dynamic_extent).data ≠ nullptr ∧
      ¬ ((span.mk 16 0 : span dynamic_extent).data = nullptr ↔
          (span.mk 16 0 : span dynamic_extent).size = 0) ∧
      (span.mk 16 4 : span dynamic_extent).first 0 = some ⟨16, 0⟩ :=
  ⟨by decide,
    span.Reachable.ptr_count dynamic_extent 16 0 _ (by decide) (by decide) (by decide),
    by decide, by decide, by decide, by decide⟩

/-- Claim C11, amended: for every view reachable through the public operations, a
null `data()` implies `size() == 0`, and a view with `size() != 0` has a `data()`
that is not null; a view of size 0 may have either. -/
theorem reachable_null_imp_empty {E : Nat} (v : span E) (h : span.Reachable v) :
    (v.data = nullptr → v.size = 0) ∧ (v.size ≠ 0 → v.data ≠ nullptr) := by
  have hv := (span.Reachable.valid h).2.1
  exact ⟨hv, fun hs hd => hs (hv hd)⟩

/-- Witness of `reachable_null_imp_empty`: the last 2 elements of the view built
from the pointer 16 and the count 4. -/
theorem reachable_null_imp_empty_witness :
    ((span.mk 18 2 : span dynamic_extent).data = nullptr →
        (span.mk 18 2 : span dynamic_extent).size = 0) ∧
      ((span.mk 18 2 : span dynamic_extent).size ≠ 0 →
        (span.mk 18 2 : span dynamic_extent).data ≠ nullptr) :=
  reachable_null_imp_empty (span.mk 18 2 : span dynamic_extent)
    (span.Reachable.last 2 (span.mk 16 4 : span dynamic_extent) _
      (span.Reachable.ptr_count dynamic_extent 16 4 _ (by decide) (by decide) (by decide))
      (by decide) (by decide))

/-- Claim C12: for every pointer `p`, null or not, the dynamic-extent construction
from `(p, 0)` succeeds, and the view has `empty() == true` and `size() == 0`. -/
theorem ctor_zero_count (p : Nat) :
    ∃ r : span dynamic_extent, span.ctor dynamic_extent p 0 = some r ∧
      r.empty = true ∧ r.size = 0 ∧ r.data = p := by
  refine ⟨⟨p, 0⟩, ?_, ?_, rfl, rfl⟩
  · rw [span.ctor_eq]
    simp
  · simp [span.empty, span.size]

/-- Claim C13, counterexample: the view `span<T>` built from an array of 5 elements
has `size() == 5` and the static extent `dynamic_extent`, which is not 5. -/
theorem ctor_array_default_extent :
    (span.ctor_array dynamic_extent 16 5).size = 5 ∧
      (span.ctor_array dynamic_extent 16 5).data = 16 ∧
      (span.ctor_array dynamic_extent 16 5).extent = dynamic_extent ∧
      (span.ctor_array dynamic_extent 16 5).extent ≠ 5 := by
  decide

/-- Claim C13, amended: for every `N`, constructing a view `span<T, Extent>` from a
fixed-size array of `N` elements, with `Extent` either `dynamic_extent` or `N`,
always succeeds (the constructor has no assertion) and yields `size() == N` and
`data()` at the array's first element; the static extent is the `Extent` of the
view's type, so it is `N`, and equal to `size()`, when the type is `span<T, N>`. -/
theorem ctor_array_spec (Extent arr N : Nat) (hE : Extent = dynamic_extent ∨ Extent = N) :
    (span.ctor_array Extent arr N).size = N ∧
    (span.ctor_array Extent arr N).data = arr ∧
    (span.ctor_array Extent arr N).extent = Extent ∧
    (Extent ≠ dynamic_extent →
      (span.ctor_array Extent arr N).extent = N ∧
      (span.ctor_array Extent arr N).size = (span.ctor_array Extent arr N).extent) := by
  refine ⟨rfl, rfl, rfl, fun hne => ?_⟩
  rcases hE with h | h
  · exact absurd h hne
  · exact ⟨h, h.symm⟩

/-- Witness of `ctor_array_spec`: `span<T, 5>` from an array of 5 elements at
address 16 has `size() == 5` and static extent 5. -/
theorem ctor_array_spec_witness :
    (span.ctor_array 5 16 5).size = 5 ∧ (span.ctor_array 5 16 5).extent = 5 :=
  have h := ctor_array_spec 5 16 5 (Or.inr rfl)
  ⟨h.1, (h.2.2.2 (by decide)).1⟩

/-! ## The template forms against the runtime forms -/

/-- An assertion followed by `x`, observed through `f`. -/
theorem assert_bind_map {α β : Type} (b : Bool) (x : Option α) (f : α → β) :
    (do release_assert b; x).map f = if b = true then x.map f else none := by
  cases b <;> simp [release_assert]

namespace span

variable {Extent : Nat}

/-- The (pointer, count) constructor observed through `data()` and `size()`. -/
theorem ctor_observe (E p c : Nat) :
    (ctor E p c).map observe =
      if (E = dynamic_extent ∨ c = E) ∧ (p ≠ nullptr ∨ c = 0) then some (p, c) else none := by
  rw [ctor_eq]
  split_ifs <;> rfl

/-- When the extent check passes, the static extent plays no part in the outcome. -/
theorem ctor_observe_eq_dynamic (E p c : Nat) (h : E = dynamic_extent ∨ c = E) :
    (ctor E p c).map observe = (ctor dynamic_extent p c).map observe := by
  rw [ctor_observe, ctor_observe]
  simp [h]

/-- The count `subspan<Offset, Count>` passes to the constructor agrees with the
extent `extent_value` computes, on a view whose size is its concrete extent. -/
theorem subspanT_count_extent (v : span Extent) (O C : Nat)
    (hE : Extent ≠ dynamic_extent → v.size = Extent) :
    extent_value Extent O C = dynamic_extent ∨
      (if C = dynamic_extent then size_sub v.size O else C) = extent_value Extent O C := by
  unfold extent_value
  by_cases hC : C = dynamic_extent
  · by_cases hD : Extent = dynamic_extent
    · left; simp [hC, hD]
    · right; simp [hC, hD, hE hD]
  · right; simp [hC]

/-- The runtime last on a count within the view is one constructor call. -/
theorem last_eq_ctor (v : span Extent) (c : Nat) (hs : v.size_ < SIZE_MOD)
    (h : c ≤ v.size_) :
    v.last c = ctor dynamic_extent (ptr_add v.data_ (v.size_ - c)) c := by
  rw [last_within v c hs h, ctor_eq]
  simp

end span

/-- Claim C14: on a view whose `size()` equals its static extent when that extent is
concrete, `subspan<Offset, Count>()`, `first<Count>()` and `last<Count>()` each
abort exactly when `subspan(Offset, Count)`, `first(Count)` and `last(Count)` abort,
and otherwise return the same `data()` and `size()`. -/
theorem template_forms_agree {Extent : Nat} (v : span Extent) (Offset Count : Nat)
    (hE : Extent ≠ dynamic_extent → v.size = Extent) (hs : v.size < SIZE_MOD) :
    (v.subspanT Offset Count).map span.observe
        = (v.subspan Offset Count).map span.observe ∧
    (v.firstT Count).map span.observe = (v.first Count).map span.observe ∧
    (v.lastT Count).map span.observe = (v.last Count).map span.observe := by
  refine ⟨?_, ?_, ?_⟩
  · unfold span.subspanT span.subspan
    rw [assert_bind_map, assert_bind_map,
      span.ctor_observe_eq_dynamic _ _ _ (span.subspanT_count_extent v Offset Count hE)]
  · unfold span.firstT span.first
    rw [assert_bind_map, assert_bind_map,
      span.ctor_observe_eq_dynamic _ _ _ (Or.inr rfl)]
  · unfold span.size at hs
    by_cases h : Count ≤ v.size_
    · have hl := span.last_eq_ctor v Count hs h
      unfold span.lastT
      rw [assert_bind_map, hl, span.ctor_observe_eq_dynamic _ _ _ (Or.inr rfl)]
      have hd : decide (Count ≤ v.size) = true := by simpa [span.size] using h
      rw [if_pos hd]
      show Option.map span.observe
          (span.ctor dynamic_extent (ptr_sub (ptr_add v.data_ v.size_) Count) Count) = _
      rw [ptr_sub_add _ _ _ hs h]
    · have hl : v.last Count = none := by
        rw [span.last_eq, if_neg h]
      unfold span.lastT
      rw [assert_bind_map, hl]
      have hd : ¬ (decide (Count ≤ v.size) = true) := by simpa [span.size] using h
      rw [if_neg hd]
      rfl

/-- Witness of `template_forms_agree`: the view of static extent 10 over 10 elements
at address 16, offset 3 and count 4. -/
theorem template_forms_agree_witness :
    ((span.mk 16 10 : span 10).subspanT 3 4).map span.observe
        = ((span.mk 16 10 : span 10).subspan 3 4).map span.observe ∧
      ((span.mk 16 10 : span 10).firstT 4).map span.observe
        = ((span.mk 16 10 : span 10).first 4).map span.observe ∧
      ((span.mk 16 10 : span 10).lastT 4).map span.observe
        = ((span.mk 16 10 : span 10).last 4).map span.observe :=
  template_forms_agree (span.mk 16 10 : span 10) 3 4 (fun _ => rfl) (by decide)

/-! ## Laws of the runtime sub-views -/

/-- Claim C18: for every view `v`, `v.subspan(0, v.size())` succeeds and returns a
view with the same `data()` and `size()`; so it does on the empty view over the
null pointer and on a view whose size is the value `dynamic_extent`. -/
theorem subspan_identity {Extent : Nat} (v : span Extent) (hv : v.Valid) :
    (∃ r : span dynamic_extent, v.subspan 0 v.size = some r ∧
      r.data = v.data ∧ r.size = v.size) ∧
    (span.ctor_default dynamic_extent).subspan 0 (span.ctor_default dynamic_extent).size
      = some ⟨nullptr, 0⟩ ∧
    (span.mk 16 dynamic_extent : span dynamic_extent).subspan 0
        (span.mk 16 dynamic_extent : span dynamic_extent).size
      = some ⟨16, dynamic_extent⟩ := by
  refine ⟨⟨⟨v.data_, v.size_⟩, ?_, rfl, rfl⟩, by decide, by decide⟩
  obtain ⟨hlt, hnull, hdat⟩ := hv
  have hp : v.data_ ≠ nullptr ∨ v.size_ = 0 := by
    by_cases h0 : v.data_ = nullptr
    · exact Or.inr (hnull h0)
    · exact Or.inl h0
  unfold span.size
  rw [span.subspan_within v 0 v.size_ hlt (le_refl _) (Nat.zero_le _),
    ptr_add_zero _ hdat, if_pos hp]

/-- Witness of `subspan_identity`: the view of 10 elements at address 16. -/
theorem subspan_identity_witness :
    ∃ r : span dynamic_extent,
      (span.mk 16 10 : span dynamic_extent).subspan 0
          (span.mk 16 10 : span dynamic_extent).size = some r ∧
        r.data = (span.mk 16 10 : span dynamic_extent).data ∧
        r.size = (span.mk 16 10 : span dynamic_extent).size :=
  (subspan_identity (span.mk 16 10 : span dynamic_extent) (by decide)).1

/-- Claim C16, evaluated at a failing input: on the view of 4 elements at address 16
(the view object itself at address 4096), `begin()`, `end()`, `cbegin()` and
`cend()` initialise a value of the pointer type `iterator` from the two-element
lists `{this, 0}` and `{this, size()}`: no cursor at `data()` or at
`data() + size()` results, and there is nothing to advance. -/
theorem begin_end_no_cursor :
    (span.mk 16 4 : span dynamic_extent).begin 4096 = none ∧
      (span.mk 16 4 : span dynamic_extent).end_ 4096 = none ∧
      (span.mk 16 4 : span dynamic_extent).cbegin 4096 = none ∧
      (span.mk 16 4 : span dynamic_extent).cend 4096 = none ∧
      (span.mk 16 4 : span dynamic_extent).begin 4096
        ≠ some (span.mk 16 4 : span dynamic_extent).data ∧
      (span.mk 16 4 : span dynamic_extent).end_ 4096
        ≠ some ((span.mk 16 4 : span dynamic_extent).data
            + (span.mk 16 4 : span dynamic_extent).size) := by
  decide

/-- Claim C17, evaluated at a failing input: on the view of 4 elements at address 16,
`rbegin()` and `rend()` are built from `end()` and `begin()` and give no cursor
either.  Besides, `reverse_iterator` is the plain pointer type: the reverse cursor
made from a cursor at `data() + size()` (address 20) is that same cursor, which
designates index 4, and advancing it never reaches a cursor at `data()`. -/
theorem reverse_iteration_no_cursor :
    (span.mk 16 4 : span dynamic_extent).rbegin 4096 = none ∧
      (span.mk 16 4 : span dynamic_extent).rend 4096 = none ∧
      (span.mk 16 4 : span dynamic_extent).crbegin 4096 = none ∧
      (span.mk 16 4 : span dynamic_extent).crend 4096 = none ∧
      span.pointer_list_init [16 + 4] = some (16 + 4) ∧
      span.pointer_list_init [16] = some 16 ∧
      span.advance (16 + 4) 1 = 16 + 5 ∧
      (∀ n : Nat, span.advance (16 + 4) n ≠ 16) := by
  refine ⟨by decide, by decide, by decide, by decide, by decide, by decide, by decide, ?_⟩
  intro n
  unfold span.advance
  omega

end raft
